import Mathlib

/-!
Verification development for the vroomly car-sharing web client.

The repository delegates all persistence to a managed document store
(collections `conversations`, `messages`, `userProfiles`, `usernames`,
`bookings`).  This file gives a shallow embedding of the data-access
services as pure Lean functions over an explicit database state `DB`:

* messaging service (`getOrCreateConversation`, `sendMessage`,
  `markMessagesAsRead`, `markMessagesFromSenderAsRead`,
  `getUnreadMessagesCount`, `getUserConversations`, and the snapshot
  handlers of `subscribeToConversationMessages` /
  `subscribeToConversations`);
* user profile service (`saveUserProfile` with its username
  transaction, `getUserProfile`, `isUsernameAvailable`);
* booking service (`createBooking`, `getBookingById`,
  `updateBookingStatus`).

Conventions of the embedding:
* backend timestamps (`serverTimestamp()` / `Timestamp`) are modelled
  as `Nat` milliseconds taken from a logical clock `DB.now` that each
  write advances;
* generated document ids are modelled as `Nat` drawn from a counter
  `DB.nextId` (backend queries without an explicit order deliver
  documents in a deterministic id order, modelled as list order);
* a call that the source lets throw past its boundary is modelled with
  `Except`/`Option`; a call that catches and returns a structured
  result is modelled as a total function into the result type;
* backend failure is modelled by a `Bool` oracle argument of the
  `...Run` wrappers: `true` means every backend call succeeds, `false`
  means a backend call fails (throws in the source).
-/

/-- Denormalized last-message snippet stored on a conversation
(`lastMessage` field of the `Conversation` interface in
`messagemodel.ts`). -/
structure LastMessage where
  text : String
  senderId : String
  timestamp : Nat
deriving DecidableEq

/-- A document of the `conversations` collection (`Conversation` in
`messagemodel.ts`). -/
structure Conversation where
  id : Nat
  participants : List String
  lastMessage : Option LastMessage := none
  createdAt : Nat
  updatedAt : Nat
deriving DecidableEq

/-- A document of the `messages` collection (`Message` in
`messagemodel.ts`). -/
structure Message where
  id : Nat
  conversationId : Nat
  senderId : String
  text : String
  timestamp : Nat
  read : Bool
  readAt : Option Nat := none
deriving DecidableEq

/-- A document of the `userProfiles` collection (`UserProfile` in
`usermodel.ts`; optional string fields are modelled as `String` with
`""` for absent, matching the falsy checks of the source). -/
structure UserProfile where
  uid : String := ""
  username : String := ""
  displayName : String := ""
  avatar : String := ""
  profileImageUrl : String := ""
  userProvidedPhoto : Bool := false
  createdAt : Option Nat := none
  updatedAt : Option Nat := none
deriving DecidableEq

/-- Derived per-conversation summary delivered to the UI
(`ConversationSummary` in `messagemodel.ts`). -/
structure ConversationSummary where
  id : Nat
  otherUserId : String
  otherUserName : String
  otherUserPhoto : Option String
  lastMessage : String
  lastMessageDate : Nat
  unreadCount : Nat
  isLastMessageMine : Bool
deriving DecidableEq

/-- Model of `BookingStatus` enum of `bookingmodel.ts`. -/
inductive BookingStatus where
  | pending
  | approved
  | rejected
  | completed
  | canceled
deriving DecidableEq

/-- A document of the `bookings` collection (`Booking` in
`bookingmodel.ts`; dates and prices are modelled as `Nat`). -/
structure Booking where
  id : Nat
  carId : String
  carTitle : String
  carImageUrl : String
  renterId : String
  renterName : String
  ownerId : String
  ownerName : String
  startDate : Nat
  endDate : Nat
  totalPrice : Nat
  status : BookingStatus
  createdAt : Nat
  updatedAt : Nat
  cancellationReason : Option String := none
  notes : Option String := none
deriving DecidableEq

/-- Input of `createBooking` (`BookingData` in `bookingmodel.ts`). -/
structure BookingData where
  carId : String
  carTitle : String
  carImageUrl : String
  renterId : String
  renterName : String
  ownerId : String
  ownerName : String
  startDate : Nat
  endDate : Nat
  totalPrice : Nat
  notes : Option String := none
deriving DecidableEq

/-- Result object of the booking mutations (`BookingResult` in
`bookingmodel.ts`). -/
structure BookingResult where
  success : Bool
  id : Option Nat := none
  error : Option String := none
deriving DecidableEq

/-- The authenticated user handed to mutating calls (the vendor `User`
object; the code only reads `uid` and `displayName`, and treats a
missing/empty `uid` as unauthenticated). -/
structure UserAuth where
  uid : String
  displayName : String := ""
deriving DecidableEq

/-- Result object of `saveUserProfile` (`UserProfileResult` in
`userProfileService.ts`). -/
structure UserProfileResult where
  success : Bool
  error : Option String := none
deriving DecidableEq

/-- The whole backend document store: one field per collection the
claims touch, plus the id counter and the server clock. -/
structure DB where
  conversations : List Conversation := []
  messages : List Message := []
  userProfiles : List (String × UserProfile) := []
  usernames : List (String × String) := []
  bookings : List Booking := []
  nextId : Nat := 0
  now : Nat := 0
deriving DecidableEq

/-! ### Messaging service (`src/unnamed/part_000`) -/

/-- The lookup loop of `getOrCreateConversation` (lines 29-43): query
conversations with `participants array-contains userId`, then scan for
the first whose participant list also contains `otherUserId`. -/
def findConversation (userId otherUserId : String) (convs : List Conversation) :
    Option Conversation :=
  (convs.filter (fun c => c.participants.contains userId)).find?
    (fun c => c.participants.contains otherUserId)

/-- Model of `getOrCreateConversation` (part_000 lines 26-59): return the id of
the first existing conversation containing both users, otherwise insert
a fresh conversation `{participants := [userId, otherUserId]}` and
return its id. -/
def getOrCreateConversation (userId otherUserId : String) (db : DB) : Nat × DB :=
  match findConversation userId otherUserId db.conversations with
  | some c => (c.id, db)
  | none =>
    let newConversation : Conversation :=
      { id := db.nextId
        participants := [userId, otherUserId]
        lastMessage := none
        createdAt := db.now
        updatedAt := db.now }
    (db.nextId,
      { db with
          conversations := db.conversations ++ [newConversation]
          nextId := db.nextId + 1
          now := db.now + 1 })

/-- Model of `sendMessage` (part_000 lines 68-110): append a message with
`read := false`, then update the `lastMessage` of the parent conversation
and `updatedAt` in a second write.  The second write (`updateDoc`)
fails when the conversation does not exist, which the source rethrows;
that failure is modelled as `none`. -/
def sendMessage (conversationId : Nat) (senderId text : String) (db : DB) :
    Option (Nat × DB) :=
  if db.conversations.any (fun c => c.id == conversationId) then
    let newMessage : Message :=
      { id := db.nextId
        conversationId := conversationId
        senderId := senderId
        text := text
        timestamp := db.now
        read := false }
    some (db.nextId,
      { db with
          messages := db.messages ++ [newMessage]
          conversations := db.conversations.map (fun c =>
            if c.id == conversationId then
              { c with
                  lastMessage := some
                    { text := text, senderId := senderId, timestamp := db.now + 1 }
                  updatedAt := db.now + 1 }
            else c)
          nextId := db.nextId + 1
          now := db.now + 2 })
  else none

/-- The per-message update of `markMessagesAsRead` (part_000 lines
130-142): a message of the conversation with `senderId !== userId &&
read === false` gets `read := true` and a read timestamp. -/
def recipientReadFlip (conversationId : Nat) (userId : String) (t : Nat)
    (m : Message) : Message :=
  if m.conversationId == conversationId && m.senderId != userId && m.read == false
  then { m with read := true, readAt := some t }
  else m

/-- Model of `markMessagesAsRead` (part_000 lines 117-150): flip every message
of the conversation with `senderId !== userId && read === false` to
`read := true` with a read timestamp. -/
def markMessagesAsRead (conversationId : Nat) (userId : String) (db : DB) : DB :=
  { db with
      messages := db.messages.map (recipientReadFlip conversationId userId db.now)
      now := db.now + 1 }

/-- The per-message update of `markMessagesFromSenderAsRead` (part_000
lines 640-663): a message of the conversation with `senderId ===
otherUserId && read === false` gets `read := true` and a read
timestamp. -/
def senderReadFlip (conversationId : Nat) (otherUserId : String) (t : Nat)
    (m : Message) : Message :=
  if m.conversationId == conversationId && m.senderId == otherUserId && m.read == false
  then { m with read := true, readAt := some t }
  else m

/-- Model of `markMessagesFromSenderAsRead` (part_000 lines 625-670): flip every
message of the conversation with `senderId === otherUserId &&
read === false` to `read := true` with a read timestamp; backend errors
are swallowed. -/
def markMessagesFromSenderAsRead (conversationId : Nat) (otherUserId : String)
    (db : DB) : DB :=
  { db with
      messages := db.messages.map (senderReadFlip conversationId otherUserId db.now)
      now := db.now + 1 }

/-- The per-conversation unread count of `getUnreadMessagesCount`
(part_000 lines 560-576): fetch the messages of the conversation and filter
client-side for `senderId !== userId && read === false`. -/
def unreadInConversation (userId : String) (conversationId : Nat)
    (msgs : List Message) : Nat :=
  ((msgs.filter (fun m => m.conversationId == conversationId)).filter
    (fun m => m.senderId != userId && m.read == false)).length

/-- Model of `getUnreadMessagesCount` (part_000 lines 535-584): sum the unread
counts over every conversation the user participates in; an empty
`userId` yields `0`. -/
def getUnreadMessagesCount (userId : String) (db : DB) : Nat :=
  if userId == "" then 0
  else
    (((db.conversations.filter (fun c => c.participants.contains userId)).map
        (fun c => c.id)).map
      (fun cid => unreadInConversation userId cid db.messages)).sum

/-- Model of `getUserProfile` (`userProfileService.ts` lines 167-181): read one
document of `userProfiles` by uid. -/
def getUserProfile (userId : String) (db : DB) : Option UserProfile :=
  (db.userProfiles.find? (fun kv => kv.1 == userId)).map (fun kv => kv.2)

/-- JS `a || b || c` over strings (empty string is falsy), used for the
display-name fallbacks of the source. -/
def firstNonEmpty (a b c : String) : String :=
  if a != "" then a else if b != "" then b else c

/-- The per-conversation summary construction shared by
`getUserConversations` (part_000 lines 214-261) and
`subscribeToConversations` (lines 476-513): resolve the other
participant, resolve the profile of that user, count unread messages sent by
them, and package the denormalized last message.  Returns `none` (the
source returns `null` and filters it out) when no other participant is
found. -/
def mkConversationSummary (userId : String) (db : DB) (c : Conversation) :
    Option ConversationSummary :=
  let otherUserId := (c.participants.find? (fun id => id != userId)).getD ""
  if otherUserId == "" then none
  else
    let otherUser := getUserProfile otherUserId db
    some
      { id := c.id
        otherUserId := otherUserId
        otherUserName :=
          match otherUser with
          | some p => firstNonEmpty p.displayName p.username "Unknown User"
          | none => "Unknown User"
        otherUserPhoto := otherUser.map (fun p => p.profileImageUrl)
        lastMessage :=
          match c.lastMessage with
          | some lm => lm.text
          | none => "No messages yet"
        lastMessageDate :=
          match c.lastMessage with
          | some lm => lm.timestamp
          | none => 0
        unreadCount :=
          (db.messages.filter (fun m =>
            m.conversationId == c.id && m.senderId == otherUserId && m.read == false)).length
        isLastMessageMine :=
          match c.lastMessage with
          | some lm => lm.senderId == userId
          | none => false }

/-- Descending order on `updatedAt` used for conversation lists
(`bTime - aTime` comparator of part_000 lines 182-186 and 445-449). -/
def convDescUpdated (a b : Conversation) : Prop :=
  b.updatedAt ≤ a.updatedAt

instance : DecidableRel convDescUpdated :=
  fun a b => Nat.decLe b.updatedAt a.updatedAt

instance : IsTotal Conversation convDescUpdated :=
  ⟨fun a b => (Nat.le_total b.updatedAt a.updatedAt).imp id id⟩

instance : IsTrans Conversation convDescUpdated :=
  ⟨fun _ _ _ hab hbc => Nat.le_trans hbc hab⟩

/-- The fetch-then-sort of the conversation lists (part_000 lines
166-186 and 443-449): all conversations containing the user, sorted
client-side by `updatedAt` descending. -/
def userConversationsSorted (userId : String) (db : DB) : List Conversation :=
  List.insertionSort convDescUpdated
    (db.conversations.filter (fun c => c.participants.contains userId))

/-- The summary list a conversation-watch notification computes and
delivers (`subscribeToConversations` snapshot handler, part_000 lines
440-517): sorted conversations mapped to summaries, `null`s filtered
out. -/
def conversationsSnapshotPayload (userId : String) (db : DB) :
    List ConversationSummary :=
  (userConversationsSorted userId db).filterMap (mkConversationSummary userId db)

/-- Model of `getUserConversations` (part_000 lines 157-275): the same
fetch-sort-summarize pipeline, with an empty-uid guard returning `[]`. -/
def getUserConversations (userId : String) (db : DB) : List ConversationSummary :=
  if userId == "" then []
  else (userConversationsSorted userId db).filterMap (mkConversationSummary userId db)

/-- Ascending order on `timestamp` used for message lists
(`a.timestamp.toMillis() - b.timestamp.toMillis()` comparator of
part_000 lines 385-387). -/
def msgAscTimestamp (a b : Message) : Prop :=
  a.timestamp ≤ b.timestamp

instance : DecidableRel msgAscTimestamp :=
  fun a b => Nat.decLe a.timestamp b.timestamp

instance : IsTotal Message msgAscTimestamp :=
  ⟨fun a b => (Nat.le_total a.timestamp b.timestamp).imp id id⟩

instance : IsTrans Message msgAscTimestamp :=
  ⟨fun _ _ _ hab hbc => Nat.le_trans hab hbc⟩

/-- Client-side sort of the messages of a conversation, send time ascending
(part_000 lines 384-387). -/
def sortMessages (msgs : List Message) : List Message :=
  List.insertionSort msgAscTimestamp msgs

/-- The indexed `some((msg, i) => ...)` scan of part_000 lines 391-395:
true when some position differs in id or read flag, or the new list is
longer than the last one. -/
def msgsChangedFrom : List Message → List Message → Bool
  | [], _ => false
  | _ :: _, [] => true
  | m :: ms, l :: ls => m.id != l.id || m.read != l.read || msgsChangedFrom ms ls

/-- Model of `hasChanges` of the message-watch snapshot handler (part_000 lines
390-395): length differs, or some position differs in id or read
flag. -/
def msgsHasChanges (sorted last : List Message) : Bool :=
  sorted.length != last.length || msgsChangedFrom sorted last

/-- One notification delivered to a watch: either a fresh snapshot of
the store, or a subscription error (the `onSnapshot` error callback). -/
inductive WatchEvent where
  | snap (db : DB)
  | err
deriving DecidableEq

/-- One step of the `subscribeToConversationMessages` watch (part_000
lines 343-411), carrying its `lastProcessedMessages` state.  Returns
the payload passed to the callback (`none` when the callback is not
invoked) and the new state.  On a snapshot: deliver `[]` when both the
snapshot and the state are empty; otherwise sort and deliver only when
`hasChanges`.  On an error: redeliver the last known good list. -/
def msgWatchStep (conversationId : Nat) (last : List Message) :
    WatchEvent → Option (List Message) × List Message
  | .snap db =>
    let snapMsgs := db.messages.filter (fun m => m.conversationId == conversationId)
    if snapMsgs.isEmpty && last.length == 0 then (some [], last)
    else
      let sorted := sortMessages snapMsgs
      if msgsHasChanges sorted last then (some sorted, sorted) else (none, last)
  | .err => (some last, last)

/-- Run the message watch over a sequence of notifications from a given
`lastProcessedMessages` state, collecting every payload delivered to
the callback. -/
def msgWatchRunFrom (conversationId : Nat) :
    List WatchEvent → List Message → List (List Message)
  | [], _ => []
  | e :: es, last =>
    match msgWatchStep conversationId last e with
    | (some p, st) => p :: msgWatchRunFrom conversationId es st
    | (none, st) => msgWatchRunFrom conversationId es st

/-- Run the message watch from its initial state (`lastProcessedMessages
= []`, part_000 line 360). -/
def msgWatchRun (conversationId : Nat) (events : List WatchEvent) :
    List (List Message) :=
  msgWatchRunFrom conversationId events []

/-- One notification of the `subscribeToConversations` watch (part_000
lines 440-525).  The handler keeps no last-delivered state and invokes
the callback on every notification: with the recomputed summary list on
a snapshot, and with `[]` on an error (lines 518-525). -/
def convWatchEmit (userId : String) : WatchEvent → List ConversationSummary
  | .snap db => conversationsSnapshotPayload userId db
  | .err => []

/-- Run the conversation watch over a sequence of notifications,
collecting every payload delivered to the callback (one per
notification: the handler never skips an invocation). -/
def convWatchRun (userId : String) (events : List WatchEvent) :
    List (List ConversationSummary) :=
  events.map (convWatchEmit userId)

/-! ### User profile service (`userProfileService.ts`) -/

/-- Insert-or-replace in an association list keyed by `String`
(semantics of `transaction.set` / `setDoc` on a keyed document). -/
def setAssoc {α : Type} (k : String) (v : α) (l : List (String × α)) :
    List (String × α) :=
  if l.any (fun kv => kv.1 == k) then
    l.map (fun kv => if kv.1 == k then (k, v) else kv)
  else l ++ [(k, v)]

/-- Delete from an association list keyed by `String` (semantics of
`transaction.delete`). -/
def delAssoc {α : Type} (k : String) (l : List (String × α)) :
    List (String × α) :=
  l.filter (fun kv => kv.1 != k)

/-- Model of `usernames` index lookup: resolve a (lowercased) username to a uid,
as `getUserProfileByUsername` does (userProfileService.ts lines
199-224). -/
def lookupUsername (name : String) (db : DB) : Option String :=
  (db.usernames.find? (fun kv => kv.1 == name)).map (fun kv => kv.2)

/-- Model of `isUsernameAvailable` (userProfileService.ts lines 231-240): a
username is available when the `usernames` document does not exist. -/
def isUsernameAvailable (username : String) (db : DB) : Bool :=
  (lookupUsername (username.toLower) db).isNone

/-- One write of the username-reassignment transaction
(userProfileService.ts lines 117-146). -/
inductive TxOp where
  | setUsername (name uid : String)
  | delUsername (name : String)
  | setProfile (uid : String) (p : UserProfile)
deriving DecidableEq

/-- Apply one transaction write to the store. -/
def applyTxOp (db : DB) : TxOp → DB
  | .setUsername name uid => { db with usernames := setAssoc name uid db.usernames }
  | .delUsername name => { db with usernames := delAssoc name db.usernames }
  | .setProfile uid p => { db with userProfiles := setAssoc uid p db.userProfiles }

/-- Model of `runTransaction` semantics of the vendor SDK: the writes of a
transaction apply atomically — all of them when the transaction
commits, none of them when it fails. -/
def runTransaction (succeeds : Bool) (ops : List TxOp) (db : DB) : DB :=
  if succeeds then ops.foldl applyTxOp db else db

/-- The avatar URL built from the display name (userProfileService.ts
line 108; URL-encoding of the name is not modelled). -/
def avatarUrl (displayName : String) : String :=
  "https://ui-avatars.com/api/?name=" ++ displayName ++ "&background=random"

/-- The profile document written by the transaction body
(userProfileService.ts lines 128-145, a `set` with `merge := true` over
the current profile). -/
def mergedProfile (current : Option UserProfile) (username displayNameInput : String)
    (user : UserAuth) (profileImageUrl : String) (userProvidedPhoto : Bool)
    (now : Nat) : UserProfile :=
  let base := current.getD {}
  let displayName :=
    firstNonEmpty displayNameInput (firstNonEmpty base.displayName user.displayName "") ""
  { base with
      uid := user.uid
      username := username
      displayName := displayName
      updatedAt := some now
      avatar := avatarUrl displayName
      profileImageUrl :=
        if profileImageUrl != "" then profileImageUrl else avatarUrl displayName
      userProvidedPhoto := userProvidedPhoto
      createdAt := if current.isNone then some now else base.createdAt }

/-- The username-changed test of userProfileService.ts line 69: the
availability check runs only when this is a new username or the
username changed. -/
def usernameChanged (currentProfile : Option UserProfile) (username : String) : Bool :=
  match currentProfile with
  | none => true
  | some p => p.username == "" || p.username.toLower != username

/-- The three writes the username transaction performs
(userProfileService.ts lines 117-146): insert the new username mapping,
delete the old one when it exists and differs, save the merged
profile. -/
def saveUserProfileOps (un : String) (pDisplayName : Option String) (user : UserAuth)
    (photo : Option Bool) (db : DB) : List TxOp :=
  let username := un.toLower
  let currentProfile := getUserProfile user.uid db
  let profileImageUrl :=
    if photo == some true then "uploaded-image-url"
    else (currentProfile.map (fun p => p.profileImageUrl)).getD ""
  let userProvidedPhoto :=
    if photo == some true then true
    else (currentProfile.map (fun p => p.userProvidedPhoto)).getD false
  [TxOp.setUsername username user.uid]
  ++ (match currentProfile with
      | some p =>
        if p.username != "" && p.username.toLower != username then
          [TxOp.delUsername p.username.toLower]
        else []
      | none => [])
  ++ [TxOp.setProfile user.uid
        (mergedProfile currentProfile username (pDisplayName.getD "") user
          profileImageUrl userProvidedPhoto db.now)]

/-- Model of `saveUserProfile` (userProfileService.ts lines 46-162).  Arguments:
`txSucceeds` is the backend oracle for the username transaction;
`pUsername`/`pDisplayName` model the `profileData` partial; `photo`
models `photoFile` (`none` = no file, `some ok` = a file whose upload
succeeds or fails).  Mirrors the control flow of the source: auth check,
username-required check, availability check when the username is new or
changed, photo upload, then one atomic transaction performing the
writes of `saveUserProfileOps`. -/
def saveUserProfile (txSucceeds : Bool) (pUsername pDisplayName : Option String)
    (user : UserAuth) (photo : Option Bool) (db : DB) : UserProfileResult × DB :=
  if user.uid == "" then
    ({ success := false, error := some "User must be authenticated to save profile" }, db)
  else
    match pUsername with
    | none => ({ success := false, error := some "Username is required" }, db)
    | some un =>
      if usernameChanged (getUserProfile user.uid db) un.toLower
          && !isUsernameAvailable un.toLower db then
        ({ success := false
           error := some "Username is already taken. Please choose another one." }, db)
      else if photo == some false then
        ({ success := false
           error := some "Failed to upload profile image. Please try again." }, db)
      else if txSucceeds then
        ({ success := true },
          runTransaction true (saveUserProfileOps un pDisplayName user photo db) db)
      else
        ({ success := false, error := some "transaction failed" }, db)

/-! ### Booking service (`carMakeModelService.ts`) -/

/-- Model of `getBookingById` (carMakeModelService.ts lines 360-377). -/
def getBookingById (bookingId : Nat) (db : DB) : Option Booking :=
  db.bookings.find? (fun b => b.id == bookingId)

/-- Model of `createBooking` (carMakeModelService.ts lines 310-353): auth check,
force `renterId := user.uid`, insert with status `pending`. -/
def createBooking (data : BookingData) (user : UserAuth) (db : DB) :
    BookingResult × DB :=
  if user.uid == "" then
    ({ success := false, error := some "User must be authenticated to create a booking" }, db)
  else
    let renterId := if data.renterId != user.uid then user.uid else data.renterId
    let booking : Booking :=
      { id := db.nextId
        carId := data.carId
        carTitle := data.carTitle
        carImageUrl := data.carImageUrl
        renterId := renterId
        renterName := data.renterName
        ownerId := data.ownerId
        ownerName := data.ownerName
        startDate := data.startDate
        endDate := data.endDate
        totalPrice := data.totalPrice
        status := BookingStatus.pending
        createdAt := db.now
        updatedAt := db.now
        notes := data.notes }
    ({ success := true, id := some db.nextId },
      { db with bookings := db.bookings ++ [booking], nextId := db.nextId + 1, now := db.now + 1 })

/-- Model of `updateBookingStatus` (carMakeModelService.ts lines 499-572): auth
check, fetch the booking, reject callers that are neither owner nor
renter, restrict approve/reject to the owner, then update status,
`updatedAt`, and the optional reason. -/
def updateBookingStatus (bookingId : Nat) (status : BookingStatus) (user : UserAuth)
    (reason : Option String) (db : DB) : BookingResult × DB :=
  if user.uid == "" then
    ({ success := false, error := some "User must be authenticated to update a booking" }, db)
  else
    match getBookingById bookingId db with
    | none => ({ success := false, error := some "Booking not found" }, db)
    | some booking =>
      if booking.ownerId != user.uid && booking.renterId != user.uid then
        ({ success := false
           error := some "You don\x27t have permission to update this booking" }, db)
      else if (status == BookingStatus.approved || status == BookingStatus.rejected)
          && booking.ownerId != user.uid then
        ({ success := false
           error := some "Only the car owner can approve or reject bookings" }, db)
      else
        ({ success := true, id := some bookingId },
          { db with
              bookings := db.bookings.map (fun b =>
                if b.id == bookingId then
                  { b with
                      status := status
                      updatedAt := db.now
                      cancellationReason :=
                        match reason with
                        | some r => some r
                        | none => b.cancellationReason }
                else b)
              now := db.now + 1 })

/-! ### Error-propagation wrappers

Each `...Run` function is the same operation with the backend-failure
oracle made explicit.  Operations whose source rethrows caught errors
(`getOrCreateConversation`, `sendMessage`, `markMessagesAsRead`) are
`Except`-valued; operations whose source catches and returns a
structured result (`createBooking`, `updateBookingStatus`,
`saveUserProfile`) stay total into their result type; aggregate reads
degrade to an empty/zero result. -/

/-- Model of `getOrCreateConversation` with its catch block (part_000 lines
55-58): the error is logged and rethrown. -/
def getOrCreateConversationRun (backendOk : Bool) (userId otherUserId : String)
    (db : DB) : Except String (Nat × DB) :=
  if backendOk then .ok (getOrCreateConversation userId otherUserId db)
  else .error "Error getting or creating conversation"

/-- Model of `sendMessage` with its catch block (part_000 lines 106-109): the
error is logged and rethrown. -/
def sendMessageRun (backendOk : Bool) (conversationId : Nat) (senderId text : String)
    (db : DB) : Except String (Nat × DB) :=
  if backendOk then
    match sendMessage conversationId senderId text db with
    | some r => .ok r
    | none => .error "Error sending message"
  else .error "Error sending message"

/-- Model of `markMessagesAsRead` with its catch block (part_000 lines 146-149):
the error is logged and rethrown. -/
def markMessagesAsReadRun (backendOk : Bool) (conversationId : Nat) (userId : String)
    (db : DB) : Except String DB :=
  if backendOk then .ok (markMessagesAsRead conversationId userId db)
  else .error "Error marking messages as read"

/-- Model of `markMessagesFromSenderAsRead` with its catch block (part_000 lines
667-669): the error is logged and swallowed, so the call always
returns. -/
def markMessagesFromSenderAsReadRun (backendOk : Bool) (conversationId : Nat)
    (otherUserId : String) (db : DB) : DB :=
  if backendOk then markMessagesFromSenderAsRead conversationId otherUserId db
  else db

/-- Model of `createBooking` with its catch block (carMakeModelService.ts lines
346-352): a backend failure becomes a `{success := false}` result. -/
def createBookingRun (backendOk : Bool) (data : BookingData) (user : UserAuth)
    (db : DB) : BookingResult × DB :=
  if backendOk then createBooking data user db
  else ({ success := false, error := some "Failed to create booking" }, db)

/-- Model of `updateBookingStatus` with its catch block (carMakeModelService.ts
lines 565-571): a backend failure becomes a `{success := false}`
result. -/
def updateBookingStatusRun (backendOk : Bool) (bookingId : Nat) (status : BookingStatus)
    (user : UserAuth) (reason : Option String) (db : DB) : BookingResult × DB :=
  if backendOk then updateBookingStatus bookingId status user reason db
  else ({ success := false, error := some "Failed to update booking status" }, db)

/-- Model of `getUnreadMessagesCount` with its catch block (part_000 lines
580-583): any read failure yields a `0` count. -/
def getUnreadMessagesCountRun (backendOk : Bool) (userId : String) (db : DB) : Nat :=
  if backendOk then getUnreadMessagesCount userId db else 0

/-- Model of `getUserConversations` with its catch block (part_000 lines
267-274): any read failure yields an empty list. -/
def getUserConversationsRun (backendOk : Bool) (userId : String) (db : DB) :
    List ConversationSummary :=
  if backendOk then getUserConversations userId db else []

/-! ### Read-only operations (for the unread-count stability claim) -/

/-- Descending order on `timestamp` (`orderBy("timestamp", "desc")` of
`getConversationMessages`, part_000 line 300). -/
def msgDescTimestamp (a b : Message) : Prop :=
  b.timestamp ≤ a.timestamp

instance : DecidableRel msgDescTimestamp :=
  fun a b => Nat.decLe b.timestamp a.timestamp

instance : IsTotal Message msgDescTimestamp :=
  ⟨fun a b => (Nat.le_total b.timestamp a.timestamp).imp id id⟩

instance : IsTrans Message msgDescTimestamp :=
  ⟨fun _ _ _ hab hbc => Nat.le_trans hbc hab⟩

/-- Model of `getConversationMessages` (part_000 lines 283-334): newest
`messageLimit` messages of the conversation, returned in chronological
order (query desc + limit, then `reverse()`). -/
def getConversationMessages (conversationId : Nat) (messageLimit : Nat) (db : DB) :
    List Message :=
  (((List.insertionSort msgDescTimestamp
      (db.messages.filter (fun m => m.conversationId == conversationId))).take
    messageLimit).reverse)

/-- An operation of the service layer that only reads state: fetching
conversation summaries, opening (fetching the messages of) a
conversation, recomputing a watch payload, or re-running the unread
count. -/
inductive ReadOp where
  | userConversations (userId : String)
  | conversationMessages (conversationId messageLimit : Nat)
  | unreadCount (userId : String)
  | conversationsSnapshot (userId : String)
  | messagesSnapshot (conversationId : Nat) (last : List Message)
deriving DecidableEq

/-- The value a read-only operation returns. -/
inductive ReadResult where
  | summaries (l : List ConversationSummary)
  | messages (l : List Message)
  | count (n : Nat)
  | payload (p : Option (List Message) × List Message)
deriving DecidableEq

/-- Run a read-only operation: the result is computed from the state
and the state is returned as the source left it (none of these
functions performs a backend write). -/
def runReadOp (db : DB) : ReadOp → ReadResult × DB
  | .userConversations u => (.summaries (getUserConversations u db), db)
  | .conversationMessages cid lim => (.messages (getConversationMessages cid lim db), db)
  | .unreadCount u => (.count (getUnreadMessagesCount u db), db)
  | .conversationsSnapshot u => (.summaries (conversationsSnapshotPayload u db), db)
  | .messagesSnapshot cid last => (.payload (msgWatchStep cid last (.snap db)), db)

/-! ### Helper lemmas -/

/-- Scanning a filtered list is scanning the original list with the
conjunction of the predicates. -/
theorem filter_find?_eq {α : Type} (p q : α → Bool) (l : List α) :
    (l.filter p).find? q = l.find? (fun a => p a && q a) := by
  induction l with
  | nil => rfl
  | cons a l ih =>
    cases hp : p a <;> cases hq : q a <;>
      simp [List.filter_cons, List.find?_cons, hp, hq, ih]

/-- Lemma: `findConversation` looks for a conversation containing both users,
in store order. -/
theorem findConversation_eq_find? (A B : String) (l : List Conversation) :
    findConversation A B l
      = l.find? (fun c => c.participants.contains A && c.participants.contains B) :=
  filter_find?_eq _ _ l

/-- The conversation lookup is symmetric in the two users. -/
theorem findConversation_comm (A B : String) (l : List Conversation) :
    findConversation A B l = findConversation B A l := by
  rw [findConversation_eq_find?, findConversation_eq_find?]
  congr 1
  funext c
  exact Bool.and_comm _ _

/-! ### Claim theorems -/

/-- The new conversation document the create branch of
`getOrCreateConversation` inserts. -/
def freshConversation (userId otherUserId : String) (db : DB) : Conversation :=
  { id := db.nextId
    participants := [userId, otherUserId]
    lastMessage := none
    createdAt := db.now
    updatedAt := db.now }

/-- When no conversation contains both users, `getOrCreateConversation`
appends a fresh conversation and returns its id. -/
theorem getOrCreateConversation_create (A B : String) (db : DB)
    (h : findConversation A B db.conversations = none) :
    getOrCreateConversation A B db
      = (db.nextId,
         { db with
             conversations := db.conversations ++ [freshConversation A B db]
             nextId := db.nextId + 1
             now := db.now + 1 }) := by
  simp [getOrCreateConversation, h, freshConversation]

/-- After the create branch for `(A, B)`, looking the pair up again (in
either order) finds exactly the freshly inserted conversation. -/
theorem findConversation_after_create (A B X Y : String) (db : DB)
    (h : findConversation A B db.conversations = none)
    (hXY : (X = A ∧ Y = B) ∨ (X = B ∧ Y = A)) :
    findConversation X Y (db.conversations ++ [freshConversation A B db])
      = some (freshConversation A B db) := by
  have hAB : db.conversations.find?
      (fun c => c.participants.contains A && c.participants.contains B) = none := by
    rw [← findConversation_eq_find?]; exact h
  have hXYfind : db.conversations.find?
      (fun c => c.participants.contains X && c.participants.contains Y) = none := by
    rcases hXY with ⟨hX, hY⟩ | ⟨hX, hY⟩ <;> subst hX <;> subst hY
    · exact hAB
    · rw [← findConversation_eq_find?, findConversation_comm, findConversation_eq_find?]
      exact hAB
  have hpred : ((freshConversation A B db).participants.contains X
      && (freshConversation A B db).participants.contains Y) = true := by
    rcases hXY with ⟨hX, hY⟩ | ⟨hX, hY⟩ <;> subst hX <;> subst hY <;>
      simp [freshConversation]
  rw [findConversation_eq_find?, List.find?_append, hXYfind]
  rw [Option.none_or]
  simp only [List.find?_cons, List.find?_nil, hpred]

/-- Claim C1: for every pair of user ids `(A, B)` and every store
state, `getOrCreateConversation A B` called twice sequentially (with no
interleaved writes) returns the same conversation id both times, and
`getOrCreateConversation A B` and `getOrCreateConversation B A` return
the same conversation id — both when called from the same state and
when called one after the other. -/
theorem getOrCreateConversation_idempotent_and_symmetric (A B : String) (db : DB) :
    (getOrCreateConversation A B (getOrCreateConversation A B db).2).1
        = (getOrCreateConversation A B db).1
  ∧ (getOrCreateConversation B A db).1 = (getOrCreateConversation A B db).1
  ∧ (getOrCreateConversation B A (getOrCreateConversation A B db).2).1
        = (getOrCreateConversation A B db).1 := by
  cases h : findConversation A B db.conversations with
  | some c =>
    have hBA : findConversation B A db.conversations = some c :=
      (findConversation_comm B A db.conversations).trans h
    simp [getOrCreateConversation, h, hBA]
  | none =>
    have hBA : findConversation B A db.conversations = none :=
      (findConversation_comm B A db.conversations).trans h
    have hstep := getOrCreateConversation_create A B db h
    have hA := findConversation_after_create A B A B db h (Or.inl ⟨rfl, rfl⟩)
    have hB := findConversation_after_create A B B A db h (Or.inr ⟨rfl, rfl⟩)
    rw [hstep]
    refine ⟨?_, ?_, ?_⟩
    · simp only [getOrCreateConversation, hA]
      simp [freshConversation]
    · simp [getOrCreateConversation, h, hBA]
    · simp only [getOrCreateConversation, hB]
      simp [freshConversation]

/-- Claim C10: calling `getOrCreateConversation` with the same user id
for both arguments returns the id of the first existing conversation
containing that user — whatever the other participant is — and creates
a conversation with participant list `[u, u]` only when the user has no
conversations at all, because the match test only checks that a
conversation containing the first argument also contains the second. -/
theorem getOrCreateConversation_self_degenerate (u : String) (db : DB) :
    (∀ c rest,
      db.conversations.filter (fun c => c.participants.contains u) = c :: rest →
      getOrCreateConversation u u db = (c.id, db))
  ∧ (db.conversations.filter (fun c => c.participants.contains u) = [] →
      getOrCreateConversation u u db
        = (db.nextId,
           { db with
               conversations := db.conversations ++ [freshConversation u u db]
               nextId := db.nextId + 1
               now := db.now + 1 })) := by
  constructor
  · intro c rest hfilter
    have hc : c ∈ db.conversations.filter (fun c => c.participants.contains u) := by
      rw [hfilter]; exact List.mem_cons_self c rest
    have hcontains : (c.participants.contains u) = true := (List.mem_filter.mp hc).2
    have hfind : findConversation u u db.conversations = some c := by
      unfold findConversation
      rw [hfilter]
      simp only [List.find?_cons, hcontains]
    simp [getOrCreateConversation, hfind]
  · intro hfilter
    have hfind : findConversation u u db.conversations = none := by
      unfold findConversation
      rw [hfilter]
      rfl
    exact getOrCreateConversation_create u u db hfind

/-- Witness for C10 at concrete inputs: in a store where the only conversation of user `u` is conversation 5 with a different user `v`,
`getOrCreateConversation u u` returns 5 and writes nothing; in the
empty store it creates a conversation with participants `[w, w]`. -/
theorem getOrCreateConversation_self_degenerate_witness :
    getOrCreateConversation "u" "u"
      { conversations := [{ id := 5, participants := ["u", "v"],
                            lastMessage := none, createdAt := 0, updatedAt := 0 }]
        nextId := 6, now := 1 }
      = (5,
        { conversations := [{ id := 5, participants := ["u", "v"],
                              lastMessage := none, createdAt := 0, updatedAt := 0 }]
          nextId := 6, now := 1 })
  ∧ getOrCreateConversation "w" "w" {}
      = (0,
        { conversations := [{ id := 0, participants := ["w", "w"],
                              lastMessage := none, createdAt := 0, updatedAt := 0 }]
          nextId := 1, now := 1 }) := by
  constructor
  · exact (getOrCreateConversation_self_degenerate "u" _).1
      { id := 5, participants := ["u", "v"], lastMessage := none,
        createdAt := 0, updatedAt := 0 } [] (by decide)
  · exact (getOrCreateConversation_self_degenerate "w" {}).2 (by decide)

/-- Scenario state for the first-contact message flow: the empty store,
before users `u1` and `u2` have any conversation. -/
def firstContactDB : DB := {}

/-- The result of `getOrCreateConversation "u1" "u2"` on the empty
store. -/
def firstContactConv : Nat × DB := getOrCreateConversation "u1" "u2" firstContactDB

/-- The store after `u1` sends `"Hello"` in the new conversation
(`getD` only unwraps the `some`: the send succeeds, as the claim
theorem asserts). -/
def firstContactAfterSend : Nat × DB :=
  (sendMessage firstContactConv.1 "u1" "Hello" firstContactConv.2).getD (0, firstContactDB)

/-- The store after `u2` marks the messages from `u1` as read. -/
def firstContactAfterMark : DB :=
  markMessagesFromSenderAsRead firstContactConv.1 "u1" firstContactAfterSend.2

/-- Claim C2: from a store with no conversation between `u1` and `u2`,
`getOrCreateConversation "u1" "u2"` returns a new conversation id `c1`
(here 0, in a store that previously had no conversations); after `u1`
sends `"Hello"` in `c1` the message exists with `read = false` and
the `lastMessage.text` of `c1` is `"Hello"`; at that point the total unread count of `u2` is 1; after `markMessagesFromSenderAsRead c1 "u1"` the
read flag of the message is `true` and the total unread count of `u2` is 0. -/
theorem first_contact_message_flow :
    firstContactDB.conversations = []
  ∧ firstContactConv.1 = 0
  ∧ (firstContactConv.2.conversations.map (fun c => (c.id, c.participants)))
      = [(0, ["u1", "u2"])]
  ∧ (sendMessage firstContactConv.1 "u1" "Hello" firstContactConv.2).isSome = true
  ∧ (firstContactAfterSend.2.messages.map (fun m =>
      (m.conversationId, m.senderId, m.text, m.read)))
      = [(0, "u1", "Hello", false)]
  ∧ ((firstContactAfterSend.2.conversations.find? (fun c => c.id == firstContactConv.1)).map
      (fun c => c.lastMessage.map (fun lm => lm.text))) = some (some "Hello")
  ∧ getUnreadMessagesCount "u2" firstContactAfterSend.2 = 1
  ∧ (firstContactAfterMark.messages.map (fun m => m.read)) = [true]
  ∧ getUnreadMessagesCount "u2" firstContactAfterMark = 0 := by
  decide

/-- Scenario input for the booking approval flow: renter `r` books
the car of owner `o`. -/
def bookingFlowData : BookingData :=
  { carId := "car1", carTitle := "Car", carImageUrl := "img",
    renterId := "r", renterName := "Renter",
    ownerId := "o", ownerName := "Owner",
    startDate := 10, endDate := 20, totalPrice := 100 }

/-- The store after the renter creates the booking (id 0, status
`pending`). -/
def bookingFlowCreated : BookingResult × DB :=
  createBooking bookingFlowData { uid := "r" } {}

/-- The store after the owner approves booking 0. -/
def bookingFlowApproved : BookingResult × DB :=
  updateBookingStatus 0 BookingStatus.approved { uid := "o" } none bookingFlowCreated.2

/-- The approval attempt the renter makes after the owner approved. -/
def bookingFlowRenterAttempt : BookingResult × DB :=
  updateBookingStatus 0 BookingStatus.approved { uid := "r" } none bookingFlowApproved.2

/-- The approval attempt the renter makes straight from the
`pending` state. -/
def bookingFlowRenterAttemptPending : BookingResult × DB :=
  updateBookingStatus 0 BookingStatus.approved { uid := "r" } none bookingFlowCreated.2

/-- Claim C8: for a booking created with status `pending`,
`updateBookingStatus bookingId approved ownerUser` called by the car
owner returns success and the status of the booking becomes `approved`,
while the same call made by the renter — whether after the call of the owner
or straight from the `pending` state — returns a failure result with
the permission error, because only the owner may approve or reject. -/
theorem booking_owner_approval_renter_denied :
    bookingFlowCreated.1.success = true
  ∧ (bookingFlowCreated.2.bookings.map (fun b => (b.id, b.status)))
      = [(0, BookingStatus.pending)]
  ∧ bookingFlowApproved.1.success = true
  ∧ (bookingFlowApproved.2.bookings.map (fun b => (b.id, b.status)))
      = [(0, BookingStatus.approved)]
  ∧ bookingFlowRenterAttempt.1.success = false
  ∧ bookingFlowRenterAttempt.1.error
      = some "Only the car owner can approve or reject bookings"
  ∧ bookingFlowRenterAttempt.2 = bookingFlowApproved.2
  ∧ bookingFlowRenterAttemptPending.1.success = false
  ∧ bookingFlowRenterAttemptPending.1.error
      = some "Only the car owner can approve or reject bookings" := by
  decide

/-- Claim C3: username reassignment via `saveUserProfile` is atomic.
The new-mapping insert, old-mapping delete, and profile write all
happen inside one `runTransaction`, whose writes apply all-or-nothing;
so when the transaction fails, the whole store — in particular the
`usernames` index — is exactly what it was before the attempt: every
username (the old one included) still resolves to the same uid, and no
orphaned or dangling mapping exists. -/
theorem saveUserProfile_failed_transaction_atomic
    (pUsername pDisplayName : Option String) (user : UserAuth)
    (photo : Option Bool) (db : DB) :
    (saveUserProfile false pUsername pDisplayName user photo db).2 = db
  ∧ ∀ name,
      lookupUsername name (saveUserProfile false pUsername pDisplayName user photo db).2
        = lookupUsername name db := by
  have hstate : (saveUserProfile false pUsername pDisplayName user photo db).2 = db := by
    unfold saveUserProfile
    repeat' split
    all_goals first | rfl | simp_all
  exact ⟨hstate, fun name => by rw [hstate]⟩

/-- A concrete store for the watch counterexamples: one conversation
between `u1` and `u2` holding one unread message from `u2`. -/
def watchCexDB : DB :=
  { conversations := [{ id := 0, participants := ["u1", "u2"],
                        lastMessage := none, createdAt := 0, updatedAt := 0 }]
    messages := [{ id := 1, conversationId := 0, senderId := "u2", text := "hi",
                   timestamp := 5, read := false }]
    nextId := 2, now := 6 }

/-- The summary `watchCexDB` produces for `u1`. -/
def watchCexSummary : ConversationSummary :=
  { id := 0, otherUserId := "u2", otherUserName := "Unknown User",
    otherUserPhoto := none, lastMessage := "No messages yet",
    lastMessageDate := 0, unreadCount := 1, isLastMessageMine := false }

/-- Counterexample to claim C4 (as stated): two consecutive identical
snapshot notifications make the conversation watch invoke its callback
twice with the very same summary list — the second invocation is a
redundant recomputation with no material change, so the conversation
watch does not diff against the last delivered list.  The message watch
on the same pair of notifications delivers only once: the diffing the
claim attributes to the conversation watch lives in the message
watch. -/
theorem conversation_watch_redundant_invocation :
    convWatchRun "u1" [WatchEvent.snap watchCexDB, WatchEvent.snap watchCexDB]
      = [[watchCexSummary], [watchCexSummary]]
  ∧ msgWatchRun 0 [WatchEvent.snap watchCexDB, WatchEvent.snap watchCexDB]
      = [[{ id := 1, conversationId := 0, senderId := "u2", text := "hi",
            timestamp := 5, read := false }]] := by
  decide

/-- Claim C4 as amended: it is the message watch, not the conversation
watch, that diffs each newly recomputed sorted message list against the
last delivered one — by message count, per-position message id, and
per-position read flag — and, whenever the snapshot is nonempty, it
invokes the subscriber callback exactly when that diff reports a
change; the conversation watch invokes its callback on every
notification, with no diffing. -/
theorem message_watch_diffs_not_conversation_watch :
    (∀ (conversationId : Nat) (last : List Message) (db : DB),
      db.messages.filter (fun m => m.conversationId == conversationId) ≠ [] →
      (msgWatchStep conversationId last (WatchEvent.snap db)).1.isSome
        = msgsHasChanges
            (sortMessages (db.messages.filter (fun m => m.conversationId == conversationId)))
            last)
  ∧ (∀ (userId : String) (events : List WatchEvent),
      (convWatchRun userId events).length = events.length) := by
  constructor
  · intro conversationId last db hne
    unfold msgWatchStep
    have hempty :
        (db.messages.filter (fun m => m.conversationId == conversationId)).isEmpty
          = false := by
      cases h : db.messages.filter (fun m => m.conversationId == conversationId) with
      | nil => exact absurd h hne
      | cons a l => rfl
    simp only [hempty, Bool.false_and]
    split
    · simp_all
    · split <;> simp_all
  · intro userId events
    simp [convWatchRun]

/-- Witness for the amended C4 at a concrete input: the first nonempty
snapshot for an empty last-delivered list reports a change and is
delivered. -/
theorem message_watch_diffs_witness :
    (msgWatchStep 0 [] (WatchEvent.snap watchCexDB)).1.isSome
      = msgsHasChanges
          (sortMessages (watchCexDB.messages.filter (fun m => m.conversationId == 0)))
          [] :=
  message_watch_diffs_not_conversation_watch.1 0 [] watchCexDB (by decide)

/-- Counterexample to claim C5 (as stated): after a snapshot whose
successfully computed summary list is nonempty, an error notification
makes the conversation watch deliver the empty list, not the last
successfully computed result. -/
theorem conversation_watch_error_empty_delivery :
    convWatchRun "u1" [WatchEvent.snap watchCexDB, WatchEvent.err]
      = [[watchCexSummary], []]
  ∧ ([watchCexSummary] : List ConversationSummary) ≠ [] := by
  decide

/-- Claim C5 as amended: on a subscription error the message watch
redelivers the last successfully computed message list to its callback
(and keeps it as its state), while the conversation watch delivers an
empty list; in both watches the error is only logged, never surfaced as
an error value. -/
theorem watch_error_redelivery (conversationId : Nat) (last : List Message)
    (userId : String) :
    msgWatchStep conversationId last WatchEvent.err = (some last, last)
  ∧ convWatchEmit userId WatchEvent.err = [] :=
  ⟨rfl, rfl⟩

/-- A snapshot step of the message watch either delivers the empty
list, delivers the freshly sorted message list (making it the new
state), or delivers nothing and keeps its state. -/
theorem msgWatchStep_snap_cases (conversationId : Nat) (last : List Message) (db : DB) :
    msgWatchStep conversationId last (WatchEvent.snap db) = (some [], last)
  ∨ msgWatchStep conversationId last (WatchEvent.snap db)
      = (some (sortMessages (db.messages.filter (fun m => m.conversationId == conversationId))),
         sortMessages (db.messages.filter (fun m => m.conversationId == conversationId)))
  ∨ msgWatchStep conversationId last (WatchEvent.snap db) = (none, last) := by
  simp only [msgWatchStep]
  split
  · exact Or.inl rfl
  · split
    · exact Or.inr (Or.inl rfl)
    · exact Or.inr (Or.inr rfl)

/-- Every payload the message watch delivers from a sorted state is
sorted by send time ascending. -/
theorem msgWatchRunFrom_sorted (conversationId : Nat) (events : List WatchEvent)
    (last : List Message) (hlast : List.Sorted msgAscTimestamp last) :
    ∀ p ∈ msgWatchRunFrom conversationId events last, List.Sorted msgAscTimestamp p := by
  induction events generalizing last with
  | nil => intro p hp; simp [msgWatchRunFrom] at hp
  | cons e es ih =>
    intro p hp
    cases e with
    | err =>
      rw [msgWatchRunFrom] at hp
      simp only [msgWatchStep] at hp
      rcases List.mem_cons.mp hp with h | h
      · exact h ▸ hlast
      · exact ih last hlast p h
    | snap db =>
      rcases msgWatchStep_snap_cases conversationId last db with hstep | hstep | hstep <;>
        rw [msgWatchRunFrom, hstep] at hp
      · rcases List.mem_cons.mp hp with h | h
        · exact h ▸ List.sorted_nil
        · exact ih last hlast p h
      · have hsorted : List.Sorted msgAscTimestamp
            (sortMessages (db.messages.filter (fun m => m.conversationId == conversationId))) :=
          List.sorted_insertionSort msgAscTimestamp _
        rcases List.mem_cons.mp hp with h | h
        · exact h ▸ hsorted
        · exact ih _ hsorted p h
      · exact ih last hlast p hp

/-- Claim C6: the conversation summary lists delivered by the
subscription layer are sorted by last-updated time descending (the
summaries are the order-preserving image of the sorted conversation
list), and every message list the message watch delivers is sorted by
send time ascending — for every underlying store state and every
sequence of notifications, i.e. for every permutation of the underlying
write order, with both sorts performed client-side on the fetched
record sets. -/
theorem delivered_lists_sorted :
    (∀ (userId : String) (db : DB),
      List.Sorted convDescUpdated (userConversationsSorted userId db)
      ∧ conversationsSnapshotPayload userId db
          = (userConversationsSorted userId db).filterMap (mkConversationSummary userId db)
      ∧ getUserConversations userId db
          = if userId == "" then []
            else (userConversationsSorted userId db).filterMap (mkConversationSummary userId db))
  ∧ (∀ (conversationId : Nat) (events : List WatchEvent) (p : List Message),
      p ∈ msgWatchRun conversationId events → List.Sorted msgAscTimestamp p) := by
  constructor
  · intro userId db
    exact ⟨List.sorted_insertionSort convDescUpdated _, rfl, rfl⟩
  · intro conversationId events p hp
    exact msgWatchRunFrom_sorted conversationId events [] List.sorted_nil p hp

/-- Witness for C6 at a concrete input: the single payload the message
watch delivers for the counterexample store is sorted. -/
theorem delivered_lists_sorted_witness :
    List.Sorted msgAscTimestamp
      [{ id := 1, conversationId := 0, senderId := "u2", text := "hi",
         timestamp := 5, read := false }] :=
  delivered_lists_sorted.2 0 [WatchEvent.snap watchCexDB]
    [{ id := 1, conversationId := 0, senderId := "u2", text := "hi",
       timestamp := 5, read := false }] (by decide)

/-- Filtering after a map that can only falsify the predicate never
counts more elements. -/
theorem length_filter_map_le {α : Type} (f : α → α) (P : α → Bool) (l : List α)
    (h : ∀ a, P (f a) = true → P a = true) :
    ((l.map f).filter P).length ≤ (l.filter P).length := by
  induction l with
  | nil => simp
  | cons a l ih =>
    simp only [List.map_cons, List.filter_cons]
    cases hfa : P (f a) <;> cases ha : P a
    · simpa using ih
    · simpa using Nat.le_succ_of_le ih
    · exact absurd (h a hfa) (by simp [ha])
    · simpa using Nat.succ_le_succ ih

/-- A strict drop in the filtered count across a map exhibits an
element the map moved out of the filter. -/
theorem exists_falsified_of_filter_lt {α : Type} (f : α → α) (P : α → Bool) (l : List α)
    (hlt : ((l.map f).filter P).length < (l.filter P).length) :
    ∃ a ∈ l, P a = true ∧ P (f a) = false := by
  induction l with
  | nil => simp at hlt
  | cons a l ih =>
    simp only [List.map_cons, List.filter_cons] at hlt
    cases hfa : P (f a) <;> cases ha : P a
    · simp only [hfa, ha] at hlt
      simp only [Bool.false_eq_true, if_false] at hlt
      obtain ⟨x, hx, h1, h2⟩ := ih hlt
      exact ⟨x, List.mem_cons_of_mem a hx, h1, h2⟩
    · exact ⟨a, List.mem_cons_self a l, ha, hfa⟩
    · simp only [hfa, ha, if_true, Bool.false_eq_true, if_false, List.length_cons] at hlt
      obtain ⟨x, hx, h1, h2⟩ := ih (Nat.lt_of_succ_lt hlt)
      exact ⟨x, List.mem_cons_of_mem a hx, h1, h2⟩
    · simp only [hfa, ha, if_true, List.length_cons] at hlt
      obtain ⟨x, hx, h1, h2⟩ := ih (Nat.lt_of_succ_lt_succ hlt)
      exact ⟨x, List.mem_cons_of_mem a hx, h1, h2⟩

/-- The two nested filters of the per-conversation unread count fused
into one. -/
theorem unreadInConversation_eq (u : String) (cid : Nat) (msgs : List Message) :
    unreadInConversation u cid msgs
      = (msgs.filter (fun m =>
          (m.senderId != u && m.read == false) && m.conversationId == cid)).length := by
  unfold unreadInConversation
  rw [List.filter_filter]

/-- Lemma: `senderReadFlip` can only remove a message from the unread count of
any user: it never resets a read flag. -/
theorem senderReadFlip_preserves (u : String) (cid c : Nat) (s : String) (t : Nat) :
    ∀ m : Message,
      (((senderReadFlip c s t m).senderId != u && (senderReadFlip c s t m).read == false)
          && (senderReadFlip c s t m).conversationId == cid) = true →
      ((m.senderId != u && m.read == false) && m.conversationId == cid) = true := by
  intro m h
  unfold senderReadFlip at h
  split at h
  · simp at h
  · exact h

/-- Lemma: `recipientReadFlip` can only remove a message from the unread count
of any user: it never resets a read flag. -/
theorem recipientReadFlip_preserves (u : String) (cid c : Nat) (uc : String) (t : Nat) :
    ∀ m : Message,
      (((recipientReadFlip c uc t m).senderId != u
            && (recipientReadFlip c uc t m).read == false)
          && (recipientReadFlip c uc t m).conversationId == cid) = true →
      ((m.senderId != u && m.read == false) && m.conversationId == cid) = true := by
  intro m h
  unfold recipientReadFlip at h
  split at h
  · simp at h
  · exact h

/-- A message that `senderReadFlip` removed from the unread count of user `u` was an unread message of conversation `c` sent by `s`, addressed
to `u` (sender distinct from `u`), and `cid = c`. -/
theorem senderReadFlip_falsified (u : String) (cid c : Nat) (s : String) (t : Nat)
    (m : Message)
    (hP : ((m.senderId != u && m.read == false) && m.conversationId == cid) = true)
    (hPf : (((senderReadFlip c s t m).senderId != u
          && (senderReadFlip c s t m).read == false)
        && (senderReadFlip c s t m).conversationId == cid) = false) :
    m.conversationId = c ∧ m.senderId = s ∧ m.read = false ∧ m.senderId ≠ u ∧ cid = c := by
  by_cases hcond : (m.conversationId == c && m.senderId == s && m.read == false) = true
  · simp only [bne_iff_ne, ne_eq, beq_iff_eq, Bool.and_eq_true, decide_eq_true_eq] at hP hcond
    obtain ⟨⟨hsne, hread⟩, hconv⟩ := hP
    obtain ⟨⟨hc, hs⟩, _⟩ := hcond
    exact ⟨hc, hs, hread, hsne, by rw [← hconv, hc]⟩
  · unfold senderReadFlip at hPf
    rw [if_neg hcond] at hPf
    rw [hP] at hPf
    exact Bool.noConfusion hPf

/-- Lemma: `markMessagesFromSenderAsRead` never increases the total unread count of any user. -/
theorem mark_from_sender_count_le (u s : String) (c : Nat) (db : DB) :
    getUnreadMessagesCount u (markMessagesFromSenderAsRead c s db)
      ≤ getUnreadMessagesCount u db := by
  unfold getUnreadMessagesCount markMessagesFromSenderAsRead
  by_cases hu : (u == "") = true
  · rw [if_pos hu, if_pos hu]
  · rw [if_neg hu, if_neg hu]
    dsimp only
    apply List.sum_le_sum
    intro cid _
    rw [unreadInConversation_eq, unreadInConversation_eq]
    exact length_filter_map_le _ _ _ (senderReadFlip_preserves u cid c s db.now)

/-- Lemma: `markMessagesAsRead` never increases the total unread count of any user. -/
theorem mark_recipient_count_le (u uc : String) (c : Nat) (db : DB) :
    getUnreadMessagesCount u (markMessagesAsRead c uc db)
      ≤ getUnreadMessagesCount u db := by
  unfold getUnreadMessagesCount markMessagesAsRead
  by_cases hu : (u == "") = true
  · rw [if_pos hu, if_pos hu]
  · rw [if_neg hu, if_neg hu]
    dsimp only
    apply List.sum_le_sum
    intro cid _
    rw [unreadInConversation_eq, unreadInConversation_eq]
    exact length_filter_map_le _ _ _ (recipientReadFlip_preserves u cid c uc db.now)

/-- When `markMessagesFromSenderAsRead c s` strictly decreases the total unread count of user `u`, the store held an unread message of
conversation `c` sent by `s ≠ u`, in a conversation `u` participates
in: the count dropped because the read flag of a message addressed to
`u` was flipped. -/
theorem mark_from_sender_count_decrease (u s : String) (c : Nat) (db : DB)
    (hlt : getUnreadMessagesCount u (markMessagesFromSenderAsRead c s db)
            < getUnreadMessagesCount u db) :
    s ≠ u ∧ ∃ m ∈ db.messages,
      m.conversationId = c ∧ m.senderId = s ∧ m.read = false ∧ m.senderId ≠ u
      ∧ ∃ cv ∈ db.conversations, cv.participants.contains u = true ∧ cv.id = c := by
  unfold getUnreadMessagesCount markMessagesFromSenderAsRead at hlt
  by_cases hu : (u == "") = true
  · rw [if_pos hu, if_pos hu] at hlt
    exact absurd hlt (lt_irrefl 0)
  · rw [if_neg hu, if_neg hu] at hlt
    dsimp only at hlt
    obtain ⟨cid, hcidmem, hcidlt⟩ := List.exists_lt_of_sum_lt _ _ hlt
    rw [unreadInConversation_eq, unreadInConversation_eq] at hcidlt
    obtain ⟨m, hm, hPm, hPfm⟩ := exists_falsified_of_filter_lt _ _ _ hcidlt
    obtain ⟨hconv, hsend, hread, hsne, hcidc⟩ :=
      senderReadFlip_falsified u cid c s db.now m hPm hPfm
    obtain ⟨cv, hcvmem, hcvid⟩ := List.mem_map.mp hcidmem
    have hcv := List.mem_filter.mp hcvmem
    exact ⟨fun hsu => hsne (hsend.trans hsu), m, hm, hconv, hsend, hread, hsne,
      cv, hcv.1, hcv.2, hcvid.trans hcidc⟩

/-- Claim C7: for every user, the total unread count never changes as a
result of an operation that only reads state (fetching summaries,
opening a conversation, recomputing a watch payload, re-running the
count): every such operation leaves the store untouched.  The
read-marking operations never increase the count, and
`markMessagesFromSenderAsRead` strictly decreases it only by flipping
the read flag of an unread message addressed to that user (sent by the
named sender, who is not the user, in a conversation the user
participates in). -/
theorem unread_count_decreases_only_by_read_marking :
    (∀ (r : ReadOp) (u : String) (db : DB),
      (runReadOp db r).2 = db
      ∧ getUnreadMessagesCount u (runReadOp db r).2 = getUnreadMessagesCount u db)
  ∧ (∀ (u s : String) (c : Nat) (db : DB),
      getUnreadMessagesCount u (markMessagesFromSenderAsRead c s db)
        ≤ getUnreadMessagesCount u db)
  ∧ (∀ (u uc : String) (c : Nat) (db : DB),
      getUnreadMessagesCount u (markMessagesAsRead c uc db)
        ≤ getUnreadMessagesCount u db)
  ∧ (∀ (u s : String) (c : Nat) (db : DB),
      getUnreadMessagesCount u (markMessagesFromSenderAsRead c s db)
        < getUnreadMessagesCount u db →
      s ≠ u ∧ ∃ m ∈ db.messages,
        m.conversationId = c ∧ m.senderId = s ∧ m.read = false ∧ m.senderId ≠ u
        ∧ ∃ cv ∈ db.conversations, cv.participants.contains u = true ∧ cv.id = c) := by
  refine ⟨?_, mark_from_sender_count_le, mark_recipient_count_le,
    mark_from_sender_count_decrease⟩
  intro r u db
  cases r <;> exact ⟨rfl, rfl⟩

/-- Witness for C7 at a concrete input: marking the messages of `u2` as read
in the counterexample store strictly decreases the unread count of `u1` (1
to 0), and the theorem locates the flipped unread message addressed to
`u1`. -/
theorem unread_count_decrease_witness :
    "u2" ≠ "u1" ∧ ∃ m ∈ watchCexDB.messages,
      m.conversationId = 0 ∧ m.senderId = "u2" ∧ m.read = false ∧ m.senderId ≠ "u1"
      ∧ ∃ cv ∈ watchCexDB.conversations,
          cv.participants.contains "u1" = true ∧ cv.id = 0 :=
  unread_count_decreases_only_by_read_marking.2.2.2 "u1" "u2" 0 watchCexDB (by decide)

/-- Counterexample to claim C9 (as stated): the messaging mutating
operations do not return a `{success, error}` result object on a
backend failure — `sendMessage`, `markMessagesAsRead` and
`getOrCreateConversation` all rethrow the caught error past the call
boundary (modelled as `Except.error`), here at concrete inputs on the
empty store. -/
theorem messaging_mutations_rethrow :
    sendMessageRun false 0 "u1" "Hello" {} = Except.error "Error sending message"
  ∧ markMessagesAsReadRun false 0 "u1" {}
      = Except.error "Error marking messages as read"
  ∧ getOrCreateConversationRun false "u1" "u2" {}
      = Except.error "Error getting or creating conversation" :=
  ⟨rfl, rfl, rfl⟩

/-- Claim C9 as amended: the booking and profile mutating operations
(`createBooking`, `updateBookingStatus`, `saveUserProfile`) return a
discriminated result object with `success := false` and an error
message on every backend failure, never throwing; the messaging
mutating operations (`getOrCreateConversation`, `sendMessage`,
`markMessagesAsRead`) instead rethrow backend errors to the caller,
while `markMessagesFromSenderAsRead` swallows them (leaving the store
unchanged); read operations degrade silently — an empty list or a zero
count — rather than raising to the UI. -/
theorem error_propagation_policy :
    (∀ (data : BookingData) (user : UserAuth) (db : DB),
      (createBookingRun false data user db).1.success = false
      ∧ (createBookingRun false data user db).1.error
          = some "Failed to create booking"
      ∧ (createBookingRun false data user db).2 = db)
  ∧ (∀ (bookingId : Nat) (status : BookingStatus) (user : UserAuth)
        (reason : Option String) (db : DB),
      (updateBookingStatusRun false bookingId status user reason db).1.success = false
      ∧ (updateBookingStatusRun false bookingId status user reason db).1.error
          = some "Failed to update booking status")
  ∧ (∀ (pUsername pDisplayName : Option String) (user : UserAuth)
        (photo : Option Bool) (db : DB),
      (saveUserProfile false pUsername pDisplayName user photo db).1.success = false)
  ∧ (∀ (userId otherUserId : String) (db : DB),
      getOrCreateConversationRun false userId otherUserId db
        = Except.error "Error getting or creating conversation")
  ∧ (∀ (conversationId : Nat) (senderId text : String) (db : DB),
      sendMessageRun false conversationId senderId text db
        = Except.error "Error sending message")
  ∧ (∀ (conversationId : Nat) (userId : String) (db : DB),
      markMessagesAsReadRun false conversationId userId db
        = Except.error "Error marking messages as read")
  ∧ (∀ (conversationId : Nat) (otherUserId : String) (db : DB),
      markMessagesFromSenderAsReadRun false conversationId otherUserId db = db)
  ∧ (∀ (userId : String) (db : DB), getUnreadMessagesCountRun false userId db = 0)
  ∧ (∀ (userId : String) (db : DB), getUserConversationsRun false userId db = []) := by
  refine ⟨fun data user db => ⟨rfl, rfl, rfl⟩,
    fun bookingId status user reason db => ⟨rfl, rfl⟩,
    ?_, fun a b db => rfl, fun cid s t db => rfl, fun cid u db => rfl,
    fun cid s db => rfl, fun u db => rfl, fun u db => rfl⟩
  intro pUsername pDisplayName user photo db
  unfold saveUserProfile
  repeat' split
  all_goals first | rfl | simp_all
